import Mathlib

/-!
Verification development for the whisper-dictation daemon core.

The Python sources (models.py, ipc.py, daemon.py, audio.py) are shallowly
embedded: pure functions become Lean functions, filesystem and process
effects become explicit parameters (a `FileState` record, a liveness
oracle for `os.kill(pid, 0)`, an `AudioEnv` record for the audio
subsystem), `time.time()` becomes an explicit rational `now` argument,
and Python exceptions become `Except` results.  JSON serialization is
modelled at the level of the JSON tree: `json.dumps`/`json.loads` are a
faithful round trip on trees, so `serialize_message`/`deserialize_message`
are embedded as functions to and from a `WireMessage` tree.
-/

namespace WhisperDictation

/-! ## models.py: enums -/

/-- States that the daemon can be in (models.py, class DaemonState). -/
inductive DaemonState
| starting
| running
| paused
| stopping
| stopped
deriving DecidableEq, Repr

/-- Enum `.value` strings of DaemonState. -/
def DaemonState.value : DaemonState → String
| .starting => "starting"
| .running => "running"
| .paused => "paused"
| .stopping => "stopping"
| .stopped => "stopped"

/-- Enum constructor `DaemonState(v)`: `some` member on a known value string,
`none` models the `ValueError` on anything else. -/
def DaemonState.ofValue : String → Option DaemonState
| "starting" => some .starting
| "running" => some .running
| "paused" => some .paused
| "stopping" => some .stopping
| "stopped" => some .stopped
| _ => Option.none

/-- Python `str()` / f-string rendering of a DaemonState member,
as produced by `f"... {self.state}"` in daemon.py. -/
def DaemonState.pyStr : DaemonState → String
| .starting => "DaemonState.STARTING"
| .running => "DaemonState.RUNNING"
| .paused => "DaemonState.PAUSED"
| .stopping => "DaemonState.STOPPING"
| .stopped => "DaemonState.STOPPED"

/-- Types of IPC messages (models.py, class IPCMessageType). -/
inductive IPCMessageType
| start
| stop
| pause
| resume
| status
| error
| list_audio_devices
| start_recording
| stop_recording
deriving DecidableEq, Repr

/-- Enum `.value` strings of IPCMessageType. -/
def IPCMessageType.value : IPCMessageType → String
| .start => "start"
| .stop => "stop"
| .pause => "pause"
| .resume => "resume"
| .status => "status"
| .error => "error"
| .list_audio_devices => "list_audio_devices"
| .start_recording => "start_recording"
| .stop_recording => "stop_recording"

/-- Enum constructor `IPCMessageType(v)`: `none` models the `ValueError`
raised on an unknown type string. -/
def IPCMessageType.ofValue : String → Option IPCMessageType
| "start" => some .start
| "stop" => some .stop
| "pause" => some .pause
| "resume" => some .resume
| "status" => some .status
| "error" => some .error
| "list_audio_devices" => some .list_audio_devices
| "start_recording" => some .start_recording
| "stop_recording" => some .stop_recording
| _ => Option.none

/-! ## Python values stored in message `data` dicts -/

/-- Python values carried in a message `data` mapping.  `pstate` is a
`DaemonState` enum member stored directly (as `StatusResponse.__init__`
does); everything else is JSON-plain.  Dicts keep insertion order, as
Python dicts do. -/
inductive PyVal
| pnone
| pbool (b : Bool)
| pint (n : Int)
| pfloat (q : ℚ)
| pstr (s : String)
| plist (xs : List PyVal)
| pdict (kvs : List (String × PyVal))
| pstate (s : DaemonState)

/-- Test for the Python `None` object (`is None` / `is not None`). -/
def PyVal.isNone : PyVal → Bool
| .pnone => true
| _ => false

/-- Association-list lookup, modelling `d[k]` / `k in d` on a Python dict. -/
def lookupKey (kvs : List (String × PyVal)) (k : String) : Option PyVal :=
  match kvs with
  | [] => Option.none
  | (k0, v) :: rest => if k0 = k then some v else lookupKey rest k

/-- Python `d.get(k, dflt)`. -/
def getKeyD (kvs : List (String × PyVal)) (k : String) (dflt : PyVal) : PyVal :=
  match lookupKey kvs k with
  | some v => v
  | Option.none => dflt

/-! ## models.py: messages -/

/-- Base envelope for IPC messages (models.py, dataclass IPCMessage):
a type tag plus an optional data dict. -/
structure IPCMessage where
  type : IPCMessageType
  data : Option (List (String × PyVal))

/-- Request to start the daemon (models.py, StartRequest). -/
def StartRequest (config : Option (List (String × PyVal))) : IPCMessage :=
  { type := .start
    data := match config with
            | some c => some [("config", PyVal.pdict c)]
            | Option.none => Option.none }

/-- Request to stop the daemon (models.py, StopRequest). -/
def StopRequest : IPCMessage := { type := .stop, data := Option.none }

/-- Request to pause the daemon (models.py, PauseRequest). -/
def PauseRequest : IPCMessage := { type := .pause, data := Option.none }

/-- Request to resume the daemon (models.py, ResumeRequest). -/
def ResumeRequest : IPCMessage := { type := .resume, data := Option.none }

/-- Request daemon status (models.py, StatusRequest). -/
def StatusRequest : IPCMessage := { type := .status, data := Option.none }

/-- Raw builder mirroring `StatusResponse.__init__`: mandatory state,
uptime, model_loaded; current_model / error_message are added to the data
dict only when not `None`. -/
def StatusResponse.build (state : DaemonState) (uptime model_loaded : PyVal)
    (current_model error_message : PyVal) : IPCMessage :=
  { type := .status
    data := some (
      [("state", PyVal.pstate state), ("uptime", uptime),
       ("model_loaded", model_loaded)]
      ++ (if current_model.isNone then [] else [("current_model", current_model)])
      ++ (if error_message.isNone then [] else [("error_message", error_message)])) }

/-- Injection of Python `str | None` into PyVal. -/
def optStr : Option String → PyVal
| some s => PyVal.pstr s
| Option.none => PyVal.pnone

/-- StatusResponse at its declared field types: state enum, float uptime,
bool model_loaded, optional strings. -/
def statusResponse (state : DaemonState) (uptime : ℚ) (model_loaded : Bool)
    (current_model error_message : Option String) : IPCMessage :=
  StatusResponse.build state (PyVal.pfloat uptime) (PyVal.pbool model_loaded)
    (optStr current_model) (optStr error_message)

/-- Raw builder mirroring `ErrorResponse.__init__`: data is always
the two-key dict message/code. -/
def ErrorResponse.build (message code : PyVal) : IPCMessage :=
  { type := .error, data := some [("message", message), ("code", code)] }

/-- ErrorResponse at its declared field types (code defaults to 1 at call
sites that omit it). -/
def errorResponse (message : String) (code : Int) : IPCMessage :=
  ErrorResponse.build (PyVal.pstr message) (PyVal.pint code)

/-- Request to list available audio devices (models.py). -/
def ListAudioDevicesRequest : IPCMessage :=
  { type := .list_audio_devices, data := Option.none }

/-- Response with the list of audio devices (models.py). -/
def listAudioDevicesResponse (devices : List PyVal) : IPCMessage :=
  { type := .list_audio_devices, data := some [("devices", PyVal.plist devices)] }

/-- Request to start audio recording (models.py, StartRecordingRequest):
the backend key is added only when `backend` is truthy (non-None and
non-empty, per `if backend:`). -/
def startRecordingRequest (device_id : String) (sample_rate channels : Int)
    (backend : Option String) : IPCMessage :=
  { type := .start_recording
    data := some (
      [("device_id", PyVal.pstr device_id),
       ("sample_rate", PyVal.pint sample_rate),
       ("channels", PyVal.pint channels)]
      ++ (match backend with
          | some b => if b = "" then [] else [("backend", PyVal.pstr b)]
          | Option.none => [])) }

/-- Request to stop audio recording (models.py, StopRecordingRequest). -/
def StopRecordingRequest : IPCMessage :=
  { type := .stop_recording, data := Option.none }

/-! ## ipc.py: serialization -/

mutual
/-- The `json_encoder` default hook of `serialize_message`: any enum member
inside the data is replaced by its `.value` string; JSON-plain values pass
through unchanged. -/
def jsonEncode : PyVal → PyVal
| .pnone => .pnone
| .pbool b => .pbool b
| .pint n => .pint n
| .pfloat q => .pfloat q
| .pstr s => .pstr s
| .plist xs => .plist (jsonEncodeList xs)
| .pdict kvs => .pdict (jsonEncodeDict kvs)
| .pstate s => .pstr s.value

/-- jsonEncode mapped over a list. -/
def jsonEncodeList : List PyVal → List PyVal
| [] => []
| x :: xs => jsonEncode x :: jsonEncodeList xs

/-- jsonEncode mapped over dict values. -/
def jsonEncodeDict : List (String × PyVal) → List (String × PyVal)
| [] => []
| (k, v) :: kvs => (k, jsonEncode v) :: jsonEncodeDict kvs
end

/-- The JSON tree written on the wire: the envelope
`{"type": <string>, "data": <object|null>}` after `json.dumps`.  Values in
`data` contain no enum members any more. -/
structure WireMessage where
  type : String
  data : Option (List (String × PyVal))

/-- serialize_message (ipc.py): builds the wire envelope from the message
type tag value and the JSON-encoded data. -/
def serialize_message (m : IPCMessage) : WireMessage :=
  { type := m.type.value
    data := m.data.map jsonEncodeDict }

/-- Reconstruction of a DaemonState from a wire value, modelling
`DaemonState(message_data["state"])`: a valid value string (or a member
passed through) yields the member, anything else raises `ValueError`
(`none`). -/
def DaemonState.ofPyVal : PyVal → Option DaemonState
| .pstr s => DaemonState.ofValue s
| .pstate s => some s
| _ => Option.none

/-- Python truthiness of the optional `data` dict (`if message_data and ...`):
present and non-empty. -/
def dataTruthy : Option (List (String × PyVal)) → Bool
| some kvs => !kvs.isEmpty
| Option.none => false

/-- deserialize_message (ipc.py) at the JSON-tree level.  The raw-string
failure modes (invalid JSON, missing "type") are unrepresentable on a
`WireMessage`; the remaining failure is the unknown type tag.  The STATUS
branch rebuilds a StatusResponse and falls back to the generic envelope on
`KeyError`/`ValueError` (missing mandatory key or invalid state value);
the ERROR branch likewise falls back when "message" is missing. -/
def deserialize_message (w : WireMessage) : Except String IPCMessage :=
  match IPCMessageType.ofValue w.type with
  | Option.none => .error ("Invalid message type: " ++ w.type)
  | some msg_type =>
    if msg_type = .status ∧ dataTruthy w.data ∧
        (lookupKey (w.data.getD []) "state").isSome then
      let kvs := w.data.getD []
      match DaemonState.ofPyVal ((lookupKey kvs "state").getD .pnone) with
      | Option.none => .ok { type := msg_type, data := w.data }
      | some st =>
        match lookupKey kvs "uptime" with
        | Option.none => .ok { type := msg_type, data := w.data }
        | some up =>
          match lookupKey kvs "model_loaded" with
          | Option.none => .ok { type := msg_type, data := w.data }
          | some ml =>
            .ok (StatusResponse.build st up ml
              (getKeyD kvs "current_model" .pnone)
              (getKeyD kvs "error_message" .pnone))
    else if msg_type = .error ∧ dataTruthy w.data then
      let kvs := w.data.getD []
      match lookupKey kvs "message" with
      | Option.none => .ok { type := msg_type, data := w.data }
      | some m =>
        .ok (ErrorResponse.build m (getKeyD kvs "code" (PyVal.pint 1)))
    else
      .ok { type := msg_type, data := w.data }

/-! ## ipc.py: dispatch -/

/-- Names of the handler methods registered in `MessageHandler.__init__`'s
`_handlers` dict. -/
inductive HandlerName
| h_start
| h_stop
| h_pause
| h_resume
| h_status
deriving DecidableEq, Repr

/-- The `_handlers` dispatch table built by `MessageHandler.__init__`
(ipc.py lines 92-102): exactly the five lifecycle/status types are mapped;
every other message type has no registered handler. -/
def MessageHandler.table : IPCMessageType → Option HandlerName
| .start => some .h_start
| .stop => some .h_stop
| .pause => some .h_pause
| .resume => some .h_resume
| .status => some .h_status
| _ => Option.none

/-- The dispatch table of `DaemonMessageHandler`: its `__init__` calls
`super().__init__()` and adds no further entries (daemon.py lines 48-50),
so the table is the base-class table unchanged.  (The subclass overrides
the five registered methods and defines `_handle_list_audio_devices`,
`_handle_start_recording`, `_handle_stop_recording`, but never registers
those three, leaving them unreachable through `handle`.) -/
def DaemonMessageHandler.table : IPCMessageType → Option HandlerName :=
  MessageHandler.table

/-- MessageHandler.handle (ipc.py lines 104-114): look the message type up
in the dispatch table; with no registered handler, answer the
"Unknown message type" ErrorResponse with the default code 1; otherwise run
the bound handler method (passed here as the parameter `run`; the
`try/except` that converts handler exceptions into ErrorResponses lives
inside `run` in this embedding, as every `DaemonMessageHandler` method
already catches its own exceptions). -/
def MessageHandler.handle (run : HandlerName → IPCMessage → IPCMessage)
    (msg : IPCMessage) : IPCMessage :=
  match DaemonMessageHandler.table msg.type with
  | Option.none => errorResponse ("Unknown message type: " ++ msg.type.value) 1
  | some h => run h msg

/-- Base-class stub `MessageHandler._handle_start` (ipc.py line 118). -/
def MessageHandler.stub_start (_msg : IPCMessage) : IPCMessage :=
  errorResponse "Start handler not implemented" 501

/-- Base-class stub `MessageHandler._handle_stop` (ipc.py line 122). -/
def MessageHandler.stub_stop (_msg : IPCMessage) : IPCMessage :=
  errorResponse "Stop handler not implemented" 501

/-- Base-class stub `MessageHandler._handle_pause` (ipc.py line 126). -/
def MessageHandler.stub_pause (_msg : IPCMessage) : IPCMessage :=
  errorResponse "Pause handler not implemented" 501

/-- Base-class stub `MessageHandler._handle_resume` (ipc.py line 130). -/
def MessageHandler.stub_resume (_msg : IPCMessage) : IPCMessage :=
  errorResponse "Resume handler not implemented" 501

/-- Base-class default `MessageHandler._handle_status` (ipc.py line 134). -/
def MessageHandler.stub_status (_msg : IPCMessage) : IPCMessage :=
  statusResponse DaemonState.stopped 0 false Option.none Option.none

/-! ## daemon.py: helpers -/

/-- Parsing of all-digit character lists. -/
def digitsToNat : List Char → Option Nat
| [] => Option.none
| cs =>
  if cs.all Char.isDigit then
    some (cs.foldl (fun acc c => acc * 10 + (c.toNat - 48)) 0)
  else Option.none

/-- Whitespace stripping at both ends of a character list, as
`str.strip()` does. -/
def pyStripChars (cs : List Char) : List Char :=
  ((cs.dropWhile Char.isWhitespace).reverse.dropWhile Char.isWhitespace).reverse

/-- Python `str.strip()`. -/
def pyStrip (s : String) : String :=
  String.mk (pyStripChars s.toList)

/-- Python `int(s)` on a decimal string: strips surrounding whitespace (so
the explicit `.strip()` the daemon applies before `int()` is absorbed
here), accepts an optional sign followed by digits, raises `ValueError`
(`none`) otherwise. -/
def pyInt (s : String) : Option Int :=
  match pyStripChars s.toList with
  | [] => Option.none
  | c :: rest =>
    if c = '-' then (digitsToNat rest).map (fun n => -(n : Int))
    else if c = '+' then (digitsToNat rest).map (fun n => (n : Int))
    else (digitsToNat (c :: rest)).map (fun n => (n : Int))

/-- Python truthiness of an optional float field (`if self.pause_time:`,
`if not self.start_time:`): `None` and `0.0` are falsy. -/
def pyTruthyOpt : Option ℚ → Bool
| some x => !(x = 0)
| Option.none => false

/-- Exceptions raised by daemon.py operations. -/
inductive PyError
| daemonError (msg : String)
| singleInstanceError (msg : String)
| valueError (msg : String)
| osError
deriving DecidableEq, Repr

/-- Filesystem state visible to the daemon: the PID file (absent, or
present with either readable contents or an `OSError` on read) and
whether the IPC socket file exists. -/
structure FileState where
  pid_file : Option (Except Unit String)
  socket_file : Bool

/-- In-process daemon state (the fields of `Daemon.__init__` relevant to
the lifecycle; the IPC server and message handler are tracked as presence
booleans, the current audio stream as an optional abstract handle). -/
structure Daemon where
  state : DaemonState
  start_time : Option ℚ
  pause_time : Option ℚ
  total_paused_time : ℚ
  shutdown_event : Bool
  pause_event : Bool
  ipc_server : Bool
  message_handler : Bool
  current_stream : Option Nat
  audio_recorder : Bool

/-- Daemon.__init__ (daemon.py lines 181-199): state STOPPED, no times,
pause event initially set (unpaused), nothing else allocated. -/
def Daemon.init : Daemon :=
  { state := .stopped
    start_time := Option.none
    pause_time := Option.none
    total_paused_time := 0
    shutdown_event := false
    pause_event := true
    ipc_server := false
    message_handler := false
    current_stream := Option.none
    audio_recorder := false }

/-! ## daemon.py: lifecycle operations -/

/-- Daemon.start (daemon.py lines 201-231).  Fails with a `DaemonError`
naming the current state unless STOPPED; then inspects the PID file: a
read failure propagates as `OSError`, non-numeric contents propagate the
`ValueError` from `int()`, a live recorded PID raises
`SingleInstanceError`.  Otherwise it records the start time, writes the
current process id into the PID file, starts the IPC server (creating the
socket file) and ends RUNNING.  `live` models `os.kill(pid, 0)` liveness,
`selfPid` models `os.getpid()`, `now` models `time.time()`. -/
def Daemon.start (d : Daemon) (fs : FileState) (live : Int → Bool)
    (selfPid : Int) (now : ℚ) : Except PyError (Daemon × FileState) :=
  if d.state ≠ .stopped then
    .error (.daemonError ("Cannot start daemon in state " ++ d.state.pyStr))
  else
    let proceed : Except PyError (Daemon × FileState) :=
      .ok ({ d with state := .running
                    start_time := some now
                    message_handler := true
                    ipc_server := true },
           { fs with pid_file := some (.ok (toString selfPid))
                     socket_file := true })
    match fs.pid_file with
    | Option.none => proceed
    | some (.error _) => .error .osError
    | some (.ok contents) =>
      match pyInt contents with
      | Option.none =>
        .error (.valueError
          ("invalid literal for int() with base 10: \x27" ++ pyStrip contents ++ "\x27"))
      | some pid =>
        if live pid then
          .error (.singleInstanceError
            ("Daemon already running with PID " ++ toString pid))
        else proceed

/-- Daemon.stop (daemon.py lines 233-253): a no-op when already STOPPED;
otherwise closes any active stream, stops the IPC server (removing the
socket file) when one was started, removes the PID file, ends STOPPED and
sets the shutdown event. -/
def Daemon.stop (d : Daemon) (fs : FileState) : Daemon × FileState :=
  if d.state = .stopped then (d, fs)
  else
    ({ d with state := .stopped
              current_stream := Option.none
              shutdown_event := true },
     { fs with pid_file := Option.none
               socket_file := if d.ipc_server then false else fs.socket_file })

/-- Daemon.pause (daemon.py lines 255-262): valid only from RUNNING,
else a `DaemonError` naming the current state; records the pause time and
clears the pause event. -/
def Daemon.pause (d : Daemon) (now : ℚ) : Except PyError Daemon :=
  if d.state ≠ .running then
    .error (.daemonError ("Cannot pause daemon in state " ++ d.state.pyStr))
  else
    .ok { d with state := .paused, pause_time := some now, pause_event := false }

/-- Daemon.resume (daemon.py lines 264-274): valid only from PAUSED, else a
`DaemonError` naming the current state; when the pause time is truthy it
accumulates the elapsed pause into the running total and clears the pause
time, then ends RUNNING with the pause event set. -/
def Daemon.resume (d : Daemon) (now : ℚ) : Except PyError Daemon :=
  if d.state ≠ .paused then
    .error (.daemonError ("Cannot resume daemon in state " ++ d.state.pyStr))
  else
    let d1 := if pyTruthyOpt d.pause_time then
                { d with total_paused_time :=
                           d.total_paused_time + (now - d.pause_time.getD 0)
                         pause_time := Option.none }
              else d
    .ok { d1 with state := .running, pause_event := true }

/-- Daemon.get_uptime (daemon.py lines 276-287): 0 when the start time is
falsy; otherwise now minus start time minus the accumulated paused total,
additionally minus the current pause interval while PAUSED with a truthy
pause time, floored at 0 by `max`. -/
def Daemon.get_uptime (d : Daemon) (now : ℚ) : ℚ :=
  if !pyTruthyOpt d.start_time then 0
  else
    let uptime := now - d.start_time.getD 0 - d.total_paused_time
    let uptime := if d.state = .paused ∧ pyTruthyOpt d.pause_time then
                    uptime - (now - d.pause_time.getD 0)
                  else uptime
    max 0 uptime

/-- Daemon.get_status (daemon.py lines 289-295). -/
def Daemon.get_status (d : Daemon) (now : ℚ) : IPCMessage :=
  statusResponse d.state (d.get_uptime now) false Option.none Option.none

/-- Daemon.is_running (daemon.py lines 297-306): False when the PID file
does not exist; reads it under a `try` that converts `OSError` (read
failure) and `ValueError` (non-numeric contents) into False; otherwise
reports liveness of the recorded PID. -/
def Daemon.is_running (fs : FileState) (live : Int → Bool) : Bool :=
  match fs.pid_file with
  | Option.none => false
  | some (.error _) => false
  | some (.ok contents) =>
    match pyInt contents with
    | Option.none => false
    | some pid => live pid

/-! ## audio.py: devices and backends -/

/-- Represents an audio input device (audio.py, dataclass AudioDevice). -/
structure AudioDevice where
  id : String
  name : String
  description : String
  is_default : Bool
deriving DecidableEq, Repr

/-- ParecBackend.start_recording (audio.py lines 225-262): validates the
sample rate and channel count, then spawns `parec` with the fixed argument
template.  The embedding returns the argv of the spawned recorder process
on success; an error result means the call failed before any process was
spawned. -/
def ParecBackend.start_recording (device : AudioDevice)
    (sample_rate channels : Int) : Except String (List String) :=
  if sample_rate ≤ 0 then .error "Sample rate must be positive"
  else if channels ≤ 0 then .error "Channels must be positive"
  else .ok ["parec", "--device=" ++ device.id, "--format=s16le",
            "--rate=" ++ toString sample_rate,
            "--channels=" ++ toString channels]

/-- SoxBackend.start_recording (audio.py lines 322-369): same validation,
then spawns `sox` with its fixed argument template. -/
def SoxBackend.start_recording (device : AudioDevice)
    (sample_rate channels : Int) : Except String (List String) :=
  if sample_rate ≤ 0 then .error "Sample rate must be positive"
  else if channels ≤ 0 then .error "Channels must be positive"
  else .ok ["sox", "-t", "alsa", device.id, "-t", "raw",
            "-r", toString sample_rate, "-c", toString channels,
            "-b", "16", "-e", "signed-integer", "-"]

/-- PwCatBackend.start_recording (audio.py lines 453-491): same validation,
then spawns `pw-cat` with its fixed argument template. -/
def PwCatBackend.start_recording (device : AudioDevice)
    (sample_rate channels : Int) : Except String (List String) :=
  if sample_rate ≤ 0 then .error "Sample rate must be positive"
  else if channels ≤ 0 then .error "Channels must be positive"
  else .ok ["pw-cat", "--record", "--target=" ++ device.id, "--format=s16",
            "--rate=" ++ toString sample_rate,
            "--channels=" ++ toString channels]

/-! ## daemon.py: recording handlers -/

/-- Behavior of the `AudioRecorder` collaborator as seen by the recording
handlers: results of `get_default_device`, `list_devices` and
`start_recording` (the latter keyed by device, sample rate, channels and
optional backend name, yielding an abstract stream handle).  An `error`
result models an exception raised by the call. -/
structure AudioEnv where
  default_device : Except String AudioDevice
  devices : Except String (List AudioDevice)
  start_rec : AudioDevice → Int → Int → Option String → Except String Nat

/-- DaemonMessageHandler._handle_start_recording (daemon.py lines 114-158).
With a stream already active it answers the 409 conflict error without
touching anything; otherwise it ensures the recorder exists, resolves the
device ("default" goes through `get_default_device`, anything else is
looked up by id in `list_devices` and answers a 404 when absent), starts
the recording and stores the stream, answering the daemon status; any
exception from the audio layer is caught and answered as
"Failed to start recording". -/
def handleStartRecording (env : AudioEnv) (d : Daemon) (now : ℚ)
    (device_id : String) (sample_rate channels : Int)
    (backend : Option String) : IPCMessage × Daemon :=
  if d.current_stream.isSome then
    (errorResponse "Recording already in progress" 409, d)
  else
    let d := { d with audio_recorder := true }
    let devRes : Except String (Option AudioDevice) :=
      if device_id = "default" then
        env.default_device.map some
      else
        env.devices.map (fun devs => devs.find? (fun dev => dev.id = device_id))
    match devRes with
    | .error e =>
      (errorResponse ("Failed to start recording: " ++ e) 1, d)
    | .ok Option.none =>
      (errorResponse ("Audio device \x27" ++ device_id ++ "\x27 not found") 404, d)
    | .ok (some device) =>
      match env.start_rec device sample_rate channels backend with
      | .error e =>
        (errorResponse ("Failed to start recording: " ++ e) 1, d)
      | .ok stream =>
        (statusResponse d.state (d.get_uptime now) false Option.none Option.none,
         { d with current_stream := some stream })

/-- DaemonMessageHandler._handle_stop_recording (daemon.py lines 160-175).
With no active stream it answers the 404 error; otherwise it closes the
stream (`AudioStream.close` swallows termination errors), clears it and
answers the daemon status. -/
def handleStopRecording (d : Daemon) (now : ℚ) : IPCMessage × Daemon :=
  if d.current_stream.isNone then
    (errorResponse "No recording in progress" 404, d)
  else
    let d := { d with current_stream := Option.none }
    (statusResponse d.state (d.get_uptime now) false Option.none Option.none, d)

/-! ## Helper lemmas -/

/-- Round trip of the DaemonState enum through its value string. -/
theorem DaemonState.ofValue_of_value (s : DaemonState) :
    DaemonState.ofValue s.value = some s := by
  cases s <;> rfl

/-- Round trip of the IPCMessageType enum through its value string. -/
theorem IPCMessageType.ofValue_of_tag (t : IPCMessageType) :
    IPCMessageType.ofValue t.value = some t := by
  cases t <;> rfl

/-! ## Claims -/

/-- C1: for every daemon state, `start()` succeeds only from STOPPED,
`pause()` only from RUNNING and `resume()` only from PAUSED; every other
invocation of these operations fails with a `DaemonError` whose message
names the actual current state (and `pyStr` is injective, so the message
determines that state uniquely). -/
theorem lifecycle_transition_guards (d : Daemon) (fs : FileState)
    (live : Int → Bool) (selfPid : Int) (now : ℚ) :
    (∀ r, d.start fs live selfPid now = .ok r → d.state = .stopped) ∧
    (d.state ≠ .stopped →
      d.start fs live selfPid now =
        .error (.daemonError ("Cannot start daemon in state " ++ d.state.pyStr))) ∧
    (∀ d2, d.pause now = .ok d2 → d.state = .running) ∧
    (d.state ≠ .running →
      d.pause now =
        .error (.daemonError ("Cannot pause daemon in state " ++ d.state.pyStr))) ∧
    (∀ d2, d.resume now = .ok d2 → d.state = .paused) ∧
    (d.state ≠ .paused →
      d.resume now =
        .error (.daemonError ("Cannot resume daemon in state " ++ d.state.pyStr))) ∧
    (∀ s1 s2 : DaemonState, s1.pyStr = s2.pyStr → s1 = s2) := by
  refine ⟨?_, ?_, ?_, ?_, ?_, ?_, ?_⟩
  · intro r h
    by_contra hne
    simp [Daemon.start, hne] at h
  · intro hne
    simp [Daemon.start, hne]
  · intro d2 h
    by_contra hne
    simp [Daemon.pause, hne] at h
  · intro hne
    simp [Daemon.pause, hne]
  · intro d2 h
    by_contra hne
    simp [Daemon.resume, hne] at h
  · intro hne
    simp [Daemon.resume, hne]
  · intro s1 s2 h
    cases s1 <;> cases s2 <;> simp_all [DaemonState.pyStr]

/-- Witness for C1 at a RUNNING daemon: `start` fails naming the state, and
`resume` fails naming the state. -/
theorem lifecycle_transition_guards_witness :
    Daemon.start { Daemon.init with state := .running }
        { pid_file := Option.none, socket_file := false } (fun _ => false) 42 5 =
      .error (.daemonError ("Cannot start daemon in state " ++
        DaemonState.pyStr .running)) ∧
    Daemon.resume { Daemon.init with state := .running } 5 =
      .error (.daemonError ("Cannot resume daemon in state " ++
        DaemonState.pyStr .running)) :=
  ⟨(lifecycle_transition_guards { Daemon.init with state := .running }
      { pid_file := Option.none, socket_file := false }
      (fun _ => false) 42 5).2.1 (by decide),
   (lifecycle_transition_guards { Daemon.init with state := .running }
      { pid_file := Option.none, socket_file := false }
      (fun _ => false) 42 5).2.2.2.2.2.1 (by decide)⟩

/-- C3: `get_uptime` returns 0 when the daemon was never started; otherwise
(with a truthy start time) it returns now minus start time minus the
accumulated paused total, additionally subtracting the open pause interval
while PAUSED, floored at 0; consequently uptime is non-decreasing in `now`
while RUNNING and constant in `now` while PAUSED. -/
theorem get_uptime_correct (d : Daemon) (st p now now1 now2 : ℚ) :
    (d.start_time = Option.none → d.get_uptime now = 0) ∧
    (d.start_time = some st → st ≠ 0 → d.state ≠ .paused →
      d.get_uptime now = max 0 (now - st - d.total_paused_time)) ∧
    (d.start_time = some st → st ≠ 0 → d.state = .paused →
      d.pause_time = some p → p ≠ 0 →
      d.get_uptime now = max 0 (now - st - d.total_paused_time - (now - p))) ∧
    (d.state = .running → now1 ≤ now2 →
      d.get_uptime now1 ≤ d.get_uptime now2) ∧
    (d.state = .paused → pyTruthyOpt d.pause_time = true →
      d.get_uptime now1 = d.get_uptime now2) := by
  refine ⟨?_, ?_, ?_, ?_, ?_⟩
  · intro h
    simp [Daemon.get_uptime, pyTruthyOpt, h]
  · intro h hst hpa
    simp [Daemon.get_uptime, pyTruthyOpt, h, hst, hpa]
  · intro h hst hpa hpt hp
    simp [Daemon.get_uptime, pyTruthyOpt, h, hst, hpa, hpt, hp]
  · intro h hle
    cases hs : d.start_time with
    | none => simp [Daemon.get_uptime, pyTruthyOpt, hs]
    | some s =>
      by_cases hz : s = 0
      · simp [Daemon.get_uptime, pyTruthyOpt, hs, hz]
      · have hred : ∀ n : ℚ,
            d.get_uptime n = max 0 (n - s - d.total_paused_time) := by
          intro n
          simp [Daemon.get_uptime, pyTruthyOpt, hs, hz, h]
        rw [hred now1, hred now2]
        exact max_le_max le_rfl (by linarith)
  · intro h ht
    cases hs : d.start_time with
    | none => simp [Daemon.get_uptime, pyTruthyOpt, hs]
    | some s =>
      by_cases hz : s = 0
      · simp [Daemon.get_uptime, pyTruthyOpt, hs, hz]
      · cases hpt : d.pause_time with
        | none => rw [hpt] at ht; simp [pyTruthyOpt] at ht
        | some q =>
          rw [hpt] at ht
          have hq : ¬(q = 0) := by simpa [pyTruthyOpt] using ht
          have hred : ∀ n : ℚ,
              d.get_uptime n = max 0 (q - s - d.total_paused_time) := by
            intro n
            have harith : n - s - d.total_paused_time - (n - q) =
                q - s - d.total_paused_time := by ring
            simp [Daemon.get_uptime, pyTruthyOpt, hs, hz, h, hpt, hq, harith]
          rw [hred now1, hred now2]

/-- Witness for C3 at a started RUNNING daemon: uptime is monotone between
two instants, and a never-started daemon reports 0. -/
theorem get_uptime_correct_witness :
    Daemon.get_uptime
        { Daemon.init with state := .running
                           start_time := some 3 } 10 ≤
      Daemon.get_uptime
        { Daemon.init with state := .running
                           start_time := some 3 } 11 ∧
    Daemon.get_uptime Daemon.init 10 = 0 :=
  ⟨(get_uptime_correct
      { Daemon.init with state := .running
                         start_time := some 3 } 3 0 10 10 11).2.2.2.1
      rfl (by norm_num),
   (get_uptime_correct Daemon.init 3 0 10 10 11).1 rfl⟩

/-- C4: `stop()` on a STOPPED daemon is a no-op — it returns immediately,
leaving both the in-process state and the filesystem untouched, and raises
nothing (the embedding of `stop` is a total function). -/
theorem stop_idempotent (d : Daemon) (fs : FileState)
    (h : d.state = .stopped) :
    d.stop fs = (d, fs) := by
  unfold Daemon.stop
  rw [if_pos h]

/-- Witness for C4 on the freshly initialized (STOPPED) daemon. -/
theorem stop_idempotent_witness :
    Daemon.stop Daemon.init { pid_file := Option.none, socket_file := false } =
      (Daemon.init, { pid_file := Option.none, socket_file := false }) :=
  stop_idempotent Daemon.init { pid_file := Option.none, socket_file := false } rfl

/-- C7: `start()` from STOPPED with a PID file present: a recorded PID that
is alive raises the single-instance error; a numeric but dead PID lets
`start()` proceed and overwrite the file with the current process id; a
non-numeric file raises the `ValueError` from `int()` — a hard failure
rather than a silent proceed. -/
theorem start_pid_file_handling (d : Daemon) (fs : FileState)
    (live : Int → Bool) (selfPid : Int) (now : ℚ) (contents : String)
    (pid : Int) (hstate : d.state = .stopped)
    (hfile : fs.pid_file = some (.ok contents)) :
    (pyInt contents = some pid → live pid = true →
      d.start fs live selfPid now =
        .error (.singleInstanceError
          ("Daemon already running with PID " ++ toString pid))) ∧
    (pyInt contents = some pid → live pid = false →
      d.start fs live selfPid now =
        .ok ({ d with state := .running
                      start_time := some now
                      message_handler := true
                      ipc_server := true },
             { fs with pid_file := some (.ok (toString selfPid))
                       socket_file := true })) ∧
    (pyInt contents = Option.none →
      d.start fs live selfPid now =
        .error (.valueError ("invalid literal for int() with base 10: \x27" ++
          pyStrip contents ++ "\x27"))) := by
  refine ⟨?_, ?_, ?_⟩
  · intro hn hl
    simp [Daemon.start, hstate, hfile, hn, hl]
  · intro hn hl
    simp [Daemon.start, hstate, hfile, hn, hl]
  · intro hn
    simp [Daemon.start, hstate, hfile, hn]

/-- Witness for C7: a live recorded PID 12345 blocks `start`; the same file
with no live process lets `start` succeed and overwrite it with PID 777;
non-numeric contents fail with a ValueError. -/
theorem start_pid_file_handling_witness :
    (Daemon.start Daemon.init
        { pid_file := some (.ok "12345"), socket_file := false }
        (fun q => decide (q = 12345)) 777 5 =
      .error (.singleInstanceError "Daemon already running with PID 12345")) ∧
    (Daemon.start Daemon.init
        { pid_file := some (.ok "12345"), socket_file := false }
        (fun _ => false) 777 5 =
      .ok ({ Daemon.init with state := .running
                              start_time := some 5
                              message_handler := true
                              ipc_server := true },
           { pid_file := some (.ok "777"), socket_file := true })) ∧
    (Daemon.start Daemon.init
        { pid_file := some (.ok "not-a-pid"), socket_file := false }
        (fun _ => false) 777 5 =
      .error (.valueError ("invalid literal for int() with base 10: \x27" ++
        pyStrip "not-a-pid" ++ "\x27"))) :=
  ⟨(start_pid_file_handling Daemon.init
      { pid_file := some (.ok "12345"), socket_file := false }
      (fun q => decide (q = 12345)) 777 5 "12345" 12345 rfl rfl).1
      (by decide) (by decide),
   (start_pid_file_handling Daemon.init
      { pid_file := some (.ok "12345"), socket_file := false }
      (fun _ => false) 777 5 "12345" 12345 rfl rfl).2.1
      (by decide) rfl,
   (start_pid_file_handling Daemon.init
      { pid_file := some (.ok "not-a-pid"), socket_file := false }
      (fun _ => false) 777 5 "not-a-pid" 0 rfl rfl).2.2
      (by decide)⟩

/-- C10: `is_running()` never raises (its embedding is a total function)
and returns False when the PID file is absent, when reading it fails with
an OSError, or when its contents are non-numeric. -/
theorem is_running_never_raises (fs : FileState) (live : Int → Bool)
    (e : Unit) (s : String) :
    (fs.pid_file = Option.none → Daemon.is_running fs live = false) ∧
    (fs.pid_file = some (.error e) → Daemon.is_running fs live = false) ∧
    (fs.pid_file = some (.ok s) → pyInt s = Option.none →
      Daemon.is_running fs live = false) := by
  refine ⟨?_, ?_, ?_⟩
  · intro h
    simp [Daemon.is_running, h]
  · intro h
    simp [Daemon.is_running, h]
  · intro h hn
    simp [Daemon.is_running, h, hn]

/-- Witness for C10: absent file, failing read, and corrupted contents all
report not-running. -/
theorem is_running_never_raises_witness :
    Daemon.is_running { pid_file := Option.none, socket_file := false }
      (fun _ => true) = false ∧
    Daemon.is_running { pid_file := some (.error ()), socket_file := false }
      (fun _ => true) = false ∧
    Daemon.is_running { pid_file := some (.ok "garbage!"), socket_file := false }
      (fun _ => true) = false :=
  ⟨(is_running_never_raises { pid_file := Option.none, socket_file := false }
      (fun _ => true) () "x").1 rfl,
   (is_running_never_raises { pid_file := some (.error ()), socket_file := false }
      (fun _ => true) () "x").2.1 rfl,
   (is_running_never_raises { pid_file := some (.ok "garbage!"), socket_file := false }
      (fun _ => true) () "garbage!").2.2 rfl (by decide)⟩

/-- C8: every backend (parec, sox, pw-cat) rejects a non-positive sample
rate or channel count with a validation error; the error result means the
call returned before any recorder argv was produced, i.e. before any
external process was spawned. -/
theorem backend_validation (dev : AudioDevice) (sr ch : Int)
    (h : sr ≤ 0 ∨ ch ≤ 0) :
    (∃ m, ParecBackend.start_recording dev sr ch = .error m) ∧
    (∃ m, SoxBackend.start_recording dev sr ch = .error m) ∧
    (∃ m, PwCatBackend.start_recording dev sr ch = .error m) := by
  rcases h with h | h
  · exact ⟨⟨"Sample rate must be positive",
      by simp [ParecBackend.start_recording, h]⟩,
    ⟨"Sample rate must be positive",
      by simp [SoxBackend.start_recording, h]⟩,
    ⟨"Sample rate must be positive",
      by simp [PwCatBackend.start_recording, h]⟩⟩
  · refine ⟨?_, ?_, ?_⟩
    · by_cases hs : sr ≤ 0
      · exact ⟨"Sample rate must be positive",
          by simp [ParecBackend.start_recording, hs]⟩
      · exact ⟨"Channels must be positive",
          by simp [ParecBackend.start_recording, hs, h]⟩
    · by_cases hs : sr ≤ 0
      · exact ⟨"Sample rate must be positive",
          by simp [SoxBackend.start_recording, hs]⟩
      · exact ⟨"Channels must be positive",
          by simp [SoxBackend.start_recording, hs, h]⟩
    · by_cases hs : sr ≤ 0
      · exact ⟨"Sample rate must be positive",
          by simp [PwCatBackend.start_recording, hs]⟩
      · exact ⟨"Channels must be positive",
          by simp [PwCatBackend.start_recording, hs, h]⟩

/-- Witness for C8: a zero sample rate is rejected by all three backends. -/
theorem backend_validation_witness :
    (∃ m, ParecBackend.start_recording
      { id := "default", name := "d", description := "d", is_default := true }
      0 1 = .error m) ∧
    (∃ m, SoxBackend.start_recording
      { id := "default", name := "d", description := "d", is_default := true }
      0 1 = .error m) ∧
    (∃ m, PwCatBackend.start_recording
      { id := "default", name := "d", description := "d", is_default := true }
      0 1 = .error m) :=
  backend_validation
    { id := "default", name := "d", description := "d", is_default := true }
    0 1 (Or.inl (by norm_num))

/-- C6: with an active stream, a StartRecording request answers the 409
conflict error and leaves the daemon (in particular its stream) untouched;
a StopRecording request with no active stream answers the 404 error; and
after a successful StopRecording, a StartRecording whose device resolution
and recorder start succeed produces a status response and installs the new
stream. -/
theorem recording_exclusivity (env : AudioEnv) (d : Daemon) (now : ℚ)
    (device_id : String) (sr ch : Int) (backend : Option String)
    (s streamId : Nat) (dev : AudioDevice) :
    (d.current_stream = some s →
      handleStartRecording env d now device_id sr ch backend =
        (errorResponse "Recording already in progress" 409, d)) ∧
    (d.current_stream = Option.none →
      handleStopRecording d now =
        (errorResponse "No recording in progress" 404, d)) ∧
    (d.current_stream = some s →
      env.default_device = .ok dev →
      env.start_rec dev sr ch backend = .ok streamId →
      handleStartRecording env (handleStopRecording d now).2 now
          "default" sr ch backend =
        (statusResponse d.state (d.get_uptime now) false Option.none Option.none,
         { d with audio_recorder := true
                  current_stream := some streamId })) := by
  refine ⟨?_, ?_, ?_⟩
  · intro h
    simp [handleStartRecording, h]
  · intro h
    simp [handleStopRecording, h]
  · intro h hdev hrec
    have hsome : d.current_stream.isNone = false := by simp [h]
    cases d
    simp_all [handleStartRecording, handleStopRecording, Daemon.get_uptime,
      Except.map]

/-- Witness for C6 on a daemon holding stream 3: second start is refused
with 409; after stopping, a new start succeeds and installs stream 7. -/
theorem recording_exclusivity_witness :
    (handleStartRecording
        { default_device :=
            .ok { id := "default", name := "d", description := "d", is_default := true }
          devices := .ok []
          start_rec := fun _ _ _ _ => .ok 7 }
        { Daemon.init with current_stream := some 3 } 0 "default" 16000 1
        Option.none =
      (errorResponse "Recording already in progress" 409,
       { Daemon.init with current_stream := some 3 })) ∧
    (handleStartRecording
        { default_device :=
            .ok { id := "default", name := "d", description := "d", is_default := true }
          devices := .ok []
          start_rec := fun _ _ _ _ => .ok 7 }
        (handleStopRecording { Daemon.init with current_stream := some 3 } 0).2
        0 "default" 16000 1 Option.none =
      (statusResponse Daemon.init.state
         (Daemon.get_uptime { Daemon.init with current_stream := some 3 } 0)
         false Option.none Option.none,
       { Daemon.init with audio_recorder := true
                          current_stream := some 7 })) :=
  ⟨(recording_exclusivity
      { default_device :=
          .ok { id := "default", name := "d", description := "d", is_default := true }
        devices := .ok []
        start_rec := fun _ _ _ _ => .ok 7 }
      { Daemon.init with current_stream := some 3 } 0 "default" 16000 1
      Option.none 3 7
      { id := "default", name := "d", description := "d", is_default := true }).1
      rfl,
   (recording_exclusivity
      { default_device :=
          .ok { id := "default", name := "d", description := "d", is_default := true }
        devices := .ok []
        start_rec := fun _ _ _ _ => .ok 7 }
      { Daemon.init with current_stream := some 3 } 0 "default" 16000 1
      Option.none 3 7
      { id := "default", name := "d", description := "d", is_default := true }).2.2
      rfl rfl rfl⟩

/-- C2 (amended): the dispatch table registers handlers exactly for Start,
Stop, Pause, Resume and Status; a received type with no registered handler
(in particular ListAudioDevices, StartRecording and StopRecording) yields
an Error response with message "Unknown message type: tag" and the default
code 1; the 501 "not implemented" errors are what the registered
base-class stub handlers return when not overridden. -/
theorem dispatch_table_behavior (run : HandlerName → IPCMessage → IPCMessage)
    (msg : IPCMessage) (t : IPCMessageType) :
    ((DaemonMessageHandler.table t).isSome ↔
      t ∈ ([.start, .stop, .pause, .resume, .status] : List IPCMessageType)) ∧
    (DaemonMessageHandler.table msg.type = Option.none →
      MessageHandler.handle run msg =
        errorResponse ("Unknown message type: " ++ msg.type.value) 1) ∧
    MessageHandler.stub_start msg =
      errorResponse "Start handler not implemented" 501 ∧
    MessageHandler.stub_stop msg =
      errorResponse "Stop handler not implemented" 501 ∧
    MessageHandler.stub_pause msg =
      errorResponse "Pause handler not implemented" 501 ∧
    MessageHandler.stub_resume msg =
      errorResponse "Resume handler not implemented" 501 := by
  refine ⟨?_, ?_, rfl, rfl, rfl, rfl⟩
  · cases t <;> simp [DaemonMessageHandler.table, MessageHandler.table]
  · intro h
    unfold MessageHandler.handle
    rw [h]

/-- Counterexample for C2 as stated: the table has no handler for the
StartRecording (nor ListAudioDevices, nor StopRecording) request type, and
a received StartRecording message is answered with the
"Unknown message type" error carrying code 1, not a
"not implemented" error with code 501. -/
theorem dispatch_table_counterexample :
    DaemonMessageHandler.table IPCMessageType.start_recording = Option.none ∧
    DaemonMessageHandler.table IPCMessageType.list_audio_devices = Option.none ∧
    DaemonMessageHandler.table IPCMessageType.stop_recording = Option.none ∧
    MessageHandler.handle (fun _ m => m)
        { type := .start_recording, data := Option.none } =
      errorResponse "Unknown message type: start_recording" 1 ∧
    (1 : Int) ≠ 501 :=
  ⟨rfl, rfl, rfl, rfl, by norm_num⟩

/-- Witness for C2 (amended) at the StopRecording type: unregistered, and
answered with the code-1 unknown-type error. -/
theorem dispatch_table_behavior_witness :
    DaemonMessageHandler.table IPCMessageType.stop_recording = Option.none ∧
    MessageHandler.handle (fun _ m => m)
        { type := .stop_recording, data := Option.none } =
      errorResponse ("Unknown message type: " ++
        IPCMessageType.value .stop_recording) 1 :=
  ⟨rfl,
   (dispatch_table_behavior (fun _ m => m)
      { type := .stop_recording, data := Option.none } .status).2.1 rfl⟩

/-- C5: for every defined request and response variant (with JSON-plain
payloads, i.e. payloads fixed by the JSON encoder, as the declared field
types guarantee), deserializing the serialized message yields back the
identical message: same type tag, equal data. -/
theorem serialize_roundtrip
    (config : List (String × PyVal)) (devices : List PyVal)
    (st : DaemonState) (up : ℚ) (ml : Bool) (cm em : Option String)
    (emsg : String) (ecode : Int)
    (device_id : String) (sr ch : Int) (backend : String)
    (hconfig : jsonEncodeDict config = config)
    (hdevices : jsonEncodeList devices = devices) :
    deserialize_message (serialize_message (StartRequest (some config))) =
      .ok (StartRequest (some config)) ∧
    deserialize_message (serialize_message (StartRequest Option.none)) =
      .ok (StartRequest Option.none) ∧
    deserialize_message (serialize_message StopRequest) = .ok StopRequest ∧
    deserialize_message (serialize_message PauseRequest) = .ok PauseRequest ∧
    deserialize_message (serialize_message ResumeRequest) = .ok ResumeRequest ∧
    deserialize_message (serialize_message StatusRequest) = .ok StatusRequest ∧
    deserialize_message (serialize_message ListAudioDevicesRequest) =
      .ok ListAudioDevicesRequest ∧
    deserialize_message (serialize_message StopRecordingRequest) =
      .ok StopRecordingRequest ∧
    deserialize_message (serialize_message (statusResponse st up ml cm em)) =
      .ok (statusResponse st up ml cm em) ∧
    deserialize_message (serialize_message (errorResponse emsg ecode)) =
      .ok (errorResponse emsg ecode) ∧
    deserialize_message (serialize_message (listAudioDevicesResponse devices)) =
      .ok (listAudioDevicesResponse devices) ∧
    deserialize_message (serialize_message
        (startRecordingRequest device_id sr ch (some backend))) =
      .ok (startRecordingRequest device_id sr ch (some backend)) ∧
    deserialize_message (serialize_message
        (startRecordingRequest device_id sr ch Option.none)) =
      .ok (startRecordingRequest device_id sr ch Option.none) := by
  refine ⟨?_, ?_, ?_, ?_, ?_, ?_, ?_, ?_, ?_, ?_, ?_, ?_, ?_⟩
  · simp [serialize_message, deserialize_message, StartRequest, dataTruthy,
      jsonEncodeDict, jsonEncode, hconfig, IPCMessageType.value,
      IPCMessageType.ofValue]
  · simp [serialize_message, deserialize_message, StartRequest, dataTruthy,
      IPCMessageType.value, IPCMessageType.ofValue]
  · simp [serialize_message, deserialize_message, StopRequest, dataTruthy,
      IPCMessageType.value, IPCMessageType.ofValue]
  · simp [serialize_message, deserialize_message, PauseRequest, dataTruthy,
      IPCMessageType.value, IPCMessageType.ofValue]
  · simp [serialize_message, deserialize_message, ResumeRequest, dataTruthy,
      IPCMessageType.value, IPCMessageType.ofValue]
  · simp [serialize_message, deserialize_message, StatusRequest, dataTruthy,
      IPCMessageType.value, IPCMessageType.ofValue]
  · simp [serialize_message, deserialize_message, ListAudioDevicesRequest,
      dataTruthy, IPCMessageType.value, IPCMessageType.ofValue]
  · simp [serialize_message, deserialize_message, StopRecordingRequest,
      dataTruthy, IPCMessageType.value, IPCMessageType.ofValue]
  · cases cm <;> cases em <;>
      simp [serialize_message, deserialize_message, statusResponse,
        StatusResponse.build, optStr, PyVal.isNone, jsonEncodeDict, jsonEncode,
        dataTruthy, lookupKey, getKeyD, DaemonState.ofPyVal,
        DaemonState.ofValue_of_value, IPCMessageType.value, IPCMessageType.ofValue]
  · simp [serialize_message, deserialize_message, errorResponse,
      ErrorResponse.build, jsonEncodeDict, jsonEncode, dataTruthy, lookupKey,
      getKeyD, IPCMessageType.value, IPCMessageType.ofValue]
  · simp [serialize_message, deserialize_message, listAudioDevicesResponse,
      jsonEncodeDict, jsonEncode, hdevices, dataTruthy, IPCMessageType.value,
      IPCMessageType.ofValue]
  · by_cases hb : backend = "" <;>
      simp [serialize_message, deserialize_message, startRecordingRequest,
        jsonEncodeDict, jsonEncode, dataTruthy, hb, IPCMessageType.value,
        IPCMessageType.ofValue]
  · simp [serialize_message, deserialize_message, startRecordingRequest,
      jsonEncodeDict, jsonEncode, dataTruthy, IPCMessageType.value,
      IPCMessageType.ofValue]

/-- Witness for C5 at concrete payloads: a config dict and a device list
that are JSON-plain, and the StartRequest round trip at that config. -/
theorem serialize_roundtrip_witness :
    jsonEncodeDict [("k", PyVal.pstr "v")] = [("k", PyVal.pstr "v")] ∧
    jsonEncodeList [PyVal.pbool true] = [PyVal.pbool true] ∧
    deserialize_message (serialize_message
        (StartRequest (some [("k", PyVal.pstr "v")]))) =
      .ok (StartRequest (some [("k", PyVal.pstr "v")])) :=
  ⟨by simp [jsonEncodeDict, jsonEncode],
   by simp [jsonEncodeList, jsonEncode],
   (serialize_roundtrip [("k", PyVal.pstr "v")] [PyVal.pbool true]
      .running 5 false (some "m") Option.none "boom" 7 "default" 16000 1 "sox"
      (by simp [jsonEncodeDict, jsonEncode])
      (by simp [jsonEncodeList, jsonEncode])).1⟩

/-- C9: a status-typed wire message whose data contains a "state" field but
lacks the expected "uptime" field is decoded, without raising, into the
generic IPCMessage carrying the same type tag and the same (unchanged)
data — the decode silently degrades instead of failing. -/
theorem deserialize_status_shape_mismatch (kvs : List (String × PyVal))
    (hne : kvs ≠ [])
    (hstate : (lookupKey kvs "state").isSome = true)
    (huptime : lookupKey kvs "uptime" = Option.none) :
    deserialize_message { type := "status", data := some kvs } =
      .ok { type := .status, data := some kvs } := by
  cases kvs with
  | nil => exact absurd rfl hne
  | cons a l =>
    cases h : DaemonState.ofPyVal ((lookupKey (a :: l) "state").getD .pnone) with
    | none =>
      simp [deserialize_message, IPCMessageType.ofValue, dataTruthy, hstate, h]
    | some st =>
      simp [deserialize_message, IPCMessageType.ofValue, dataTruthy, hstate, h,
        huptime]

/-- Witness for C9: the wire message with data containing only a valid
state string decodes to the generic status envelope with that data. -/
theorem deserialize_status_shape_mismatch_witness :
    deserialize_message
        { type := "status", data := some [("state", PyVal.pstr "running")] } =
      .ok { type := .status, data := some [("state", PyVal.pstr "running")] } :=
  deserialize_status_shape_mismatch [("state", PyVal.pstr "running")]
    (by simp) rfl rfl

end WhisperDictation
